import Mathlib

/-!
Shallow embedding of `src/hospital_system.py`: a four-stage patient-flow
pipeline (registration → diagnosis → resource allocation → discharge) over
two counting-semaphore pools (doctors, beds), with rollback-on-failure in
the allocation stage, an incremental-mean statistics aggregator in the
discharge stage, and an orchestrator collection loop that bridges the
diagnosis-result queue into cooperative allocation tasks.

Python floats are modelled as rationals (`ℚ`), machine integers as `Nat`,
`random.*` draws as explicit natural-number draws consumed from an RNG
record, `asyncio`/`threading` interleaving as explicit transition systems
or failure/cancellation injection points, and exceptions as early exits
into the corresponding handler code.
-/

namespace Hospital

/-- `class PatientStatus(Enum)`: the eight pipeline states, values 0–7. -/
inductive PatientStatus where
  | WAITING_REGISTRATION
  | REGISTERED
  | WAITING_DIAGNOSIS
  | DIAGNOSED
  | WAITING_RESOURCE
  | IN_TREATMENT
  | READY_FOR_DISCHARGE
  | DISCHARGED
  deriving DecidableEq, Repr

/-- Numeric value of each status, as in the Python `Enum`. -/
def PatientStatus.value : PatientStatus → Nat
  | .WAITING_REGISTRATION => 0
  | .REGISTERED => 1
  | .WAITING_DIAGNOSIS => 2
  | .DIAGNOSED => 3
  | .WAITING_RESOURCE => 4
  | .IN_TREATMENT => 5
  | .READY_FOR_DISCHARGE => 6
  | .DISCHARGED => 7

/-- `class Priority(Enum)`: LOW = 3, MEDIUM = 2, HIGH = 1, CRITICAL = 0.
Definition (and hence Python iteration) order is LOW, MEDIUM, HIGH, CRITICAL. -/
inductive Priority where
  | LOW
  | MEDIUM
  | HIGH
  | CRITICAL
  deriving DecidableEq, Repr

/-- Numeric value of each priority member (`Priority.LOW.value == 3`, ...). -/
def Priority.value : Priority → Nat
  | .LOW => 3
  | .MEDIUM => 2
  | .HIGH => 1
  | .CRITICAL => 0

/-- `[p for p in Priority]` — the list Python iterates over in
`register_patient`, in definition order. -/
def Priority.members : List Priority := [.LOW, .MEDIUM, .HIGH, .CRITICAL]

/-- A synthetic doctor handle: `{'id': ..., 'speciality': ...}`. -/
structure DoctorHandle where
  id : Nat
  speciality : String
  deriving DecidableEq, Repr

/-- A synthetic bed handle: `{'id': ..., 'ward': ...}`. -/
structure BedHandle where
  id : Nat
  ward : String
  deriving DecidableEq, Repr

/-- The diagnosis payload dict built by `run_diagnosis_worker`:
condition, severity, recommended treatment, processing time. -/
structure Diagnosis where
  condition : String
  severity : Nat
  recommended_treatment : String
  processing_time : ℚ
  deriving DecidableEq, Repr

/-- `patient.assigned_resources`: optional doctor handle, optional bed
handle, assignment timestamp.  An empty dict is both fields `none`. -/
structure AssignedResources where
  doctor : Option DoctorHandle := none
  bed : Option BedHandle := none
  assignment_time : ℚ := 0
  deriving DecidableEq, Repr

/-- `@dataclass(order=True) class Patient`: only `priority` has
`compare=True`; every other field is `compare=False`. -/
structure Patient where
  priority : Priority
  id : Nat
  name : String
  symptoms : List String := []
  status : PatientStatus := .WAITING_REGISTRATION
  registration_time : ℚ := 0
  diagnosis : Option Diagnosis := none
  assigned_resources : AssignedResources := {}
  deriving DecidableEq, Repr

/-- Python `random.choice(xs)` on a nonempty list, driven by a draw `r`:
an index into the list.  (`getD` with the head as default; every index
`r < xs.length` is reachable, so every element can be chosen.) -/
def pyChoice (xs : List String) (r : Nat) : String :=
  xs.getD (r % xs.length) ""

/-- Python `random.choice` over `Priority.members`. -/
def pyChoicePriority (r : Nat) : Priority :=
  Priority.members.getD (r % 4) .LOW

/-- Python `random.randint(lo, hi)` (inclusive bounds), driven by a draw. -/
def pyRandint (lo hi : Nat) (r : Nat) : Nat :=
  lo + r % (hi - lo + 1)

/-!
## Patient ordering (`@dataclass(order=True)`)

`order=True` generates `__lt__` comparing the tuple of `compare=True`
fields: `(self.priority,) < (other.priority,)`.  Tuple comparison first
tests the elements for equality (well-defined on `Enum` members); if the
priorities are equal the tuples are equal and `<` returns `False`.  If
they differ, Python evaluates `Priority.__lt__`, which a plain `Enum`
does not define: the comparison raises `TypeError`.  `none` models that
raised `TypeError`; `some b` a normal return of `b`.
-/

/-- `Patient.__lt__` as generated by `@dataclass(order=True)` with only
`priority` marked `compare=True`, over a plain (unordered) `Enum`. -/
def patientLt (p q : Patient) : Option Bool :=
  if p.priority = q.priority then some false else none

/-- The ordering the spec describes: compare the numeric values of the
priorities (CRITICAL = 0 < HIGH = 1 < MEDIUM = 2 < LOW = 3).
Written from the spec's words, for comparison with `patientLt`. -/
def specPatientLt (p q : Patient) : Bool :=
  decide (p.priority.value < q.priority.value)

/-!
## Registration stage (`register_patient`, threaded)

Inside the `registration_lock` critical region the function increments
`total_patients`, draws a priority uniformly from the four members, sets
status `REGISTERED` and puts the patient on the diagnosis queue; the
variable sleep before the region touches no shared state.
-/

/-- Shared registration-stage state: the `total_patients` counter and the
diagnosis queue (FIFO, modelled as a list with `put` appending). -/
structure RegState where
  total_patients : Nat := 0
  diagnosis_queue : List Patient := []
  deriving Repr

/-- `register_patient(patient, resources)`: the critical region of the
registration worker (the preceding `time.sleep` has no shared effect).
`r` is the draw consumed by `random.choice([p for p in Priority])`. -/
def register_patient (p : Patient) (r : Nat) (s : RegState) : RegState :=
  let severity := pyChoicePriority r
  let p1 := { p with priority := severity, status := .REGISTERED }
  { s with
    total_patients := s.total_patients + 1
    diagnosis_queue := s.diagnosis_queue ++ [p1] }

/-- The registration stage as a whole: one `register_patient` invocation
per intake patient (the `ThreadPoolExecutor` submits each exactly once;
the lock serialises the critical regions, here folded in some order). -/
def runRegistration (patients : List (Patient × Nat)) (s : RegState) : RegState :=
  patients.foldl (fun st pr => register_patient pr.1 pr.2 st) s

/-!
## Diagnosis stage (`run_diagnosis_worker`, one work item)

For a non-sentinel item the worker sets status `WAITING_DIAGNOSIS`,
sleeps, builds the diagnosis payload from four `random` draws, sets
status `DIAGNOSED` and puts the patient on the result queue.
-/

/-- The draws `run_diagnosis_worker` consumes for one item: the uniform
sleep duration and the three `random.choice`/`random.randint` draws. -/
structure DiagRng where
  sleepDraw : ℚ
  conditionDraw : Nat
  severityDraw : Nat
  treatmentDraw : Nat
  deriving DecidableEq, Repr

def diagnosisConditions : List String :=
  ["Gripe", "Fractura", "Apendicitis", "COVID-19", "Migraña"]

def diagnosisTreatments : List String :=
  ["Medicamentos", "Cirugía", "Observación", "Terapia"]

/-- The payload dict built at lines 97–102 of the source. -/
def mkDiagnosis (g : DiagRng) : Diagnosis :=
  { condition := pyChoice diagnosisConditions g.conditionDraw
    severity := pyRandint 1 10 g.severityDraw
    recommended_treatment := pyChoice diagnosisTreatments g.treatmentDraw
    processing_time := g.sleepDraw }

/-- One non-sentinel iteration of `run_diagnosis_worker`: the statuses the
patient passes through (in order), the updated patient, and the result
queue after the `result_queue.put`. -/
def diagnosisStep (p : Patient) (g : DiagRng) (resultQueue : List Patient) :
    List PatientStatus × Patient × List Patient :=
  let p1 := { p with status := .WAITING_DIAGNOSIS }
  let d := mkDiagnosis g
  let p2 := { p1 with diagnosis := some d, status := .DIAGNOSED }
  ([.WAITING_DIAGNOSIS, .DIAGNOSED], p2, resultQueue ++ [p2])

/-!
## Allocation stage (`allocate_resources`, asyncio)

The function runs straight-line inside a `try`; `assigned_doctor` and
`assigned_bed` start as `None`, each semaphore acquire is followed (on
the next statement) by the assignment of a synthetic handle, and the
`except` handler releases the doctor iff `assigned_doctor` is truthy and
the bed iff `assigned_bed` is truthy.  An exception may be raised at any
point of the body; `FailPoint` enumerates the behaviourally distinct
injection points, in program order.
-/

/-- The semaphore/queue events an allocation or discharge step performs,
in order. -/
inductive Event where
  | acquireDoctor
  | acquireBed
  | releaseDoctor
  | releaseBed
  | enqueueDischarge
  deriving DecidableEq, Repr

/-- Where an injected exception interrupts `allocate_resources`, in
program order (`noFail` = the body runs to completion). -/
inductive FailPoint where
  /-- No exception: the full success path runs. -/
  | noFail
  /-- Exception before `doctors_semaphore.acquire()` returns (during the
  availability-check sleep or while suspended in the acquire itself). -/
  | beforeDoctorAcquire
  /-- Exception after the doctor acquire returns but before the statement
  `assigned_doctor = ...` completes. -/
  | afterDoctorAcquire
  /-- Exception after `assigned_doctor` is set but before
  `beds_semaphore.acquire()` returns (including while suspended in it). -/
  | afterDoctorHandle
  /-- Exception after the bed acquire returns but before the statement
  `assigned_bed = ...` completes. -/
  | afterBedAcquire
  /-- Exception after `assigned_bed` is set and before the
  `discharge_queue.put` completes (critical section, treatment sleep,
  status updates, or the put itself). -/
  | afterBedHandle
  deriving DecidableEq, Repr

/-- The draws `allocate_resources` consumes for the two handles. -/
structure AllocRng where
  doctorIdDraw : Nat
  doctorSpecDraw : Nat
  bedIdDraw : Nat
  bedWardDraw : Nat
  assignTime : ℚ
  deriving DecidableEq, Repr

/-- Outcome of one `allocate_resources` run: the event trace it emitted,
the patient record as the function leaves it, and whether the patient was
put on the discharge queue. -/
structure AllocResult where
  events : List Event
  patient : Patient
  enqueued : Bool
  deriving DecidableEq, Repr

/-- The `except` handler of `allocate_resources` (lines 161–169): release
the doctor iff `assigned_doctor` is set, then the bed iff `assigned_bed`
is set.  The failed patient is not enqueued. -/
def allocRollback (evs : List Event) (p : Patient)
    (d : Option DoctorHandle) (b : Option BedHandle) : AllocResult :=
  { events :=
      evs ++ (if d.isSome then [Event.releaseDoctor] else [])
          ++ (if b.isSome then [Event.releaseBed] else [])
    patient := p
    enqueued := false }

/-- `allocate_resources(patient, resources)` with an exception injected at
`fp`.  Mirrors the source line by line: status `WAITING_RESOURCE`; sleep;
acquire doctor; assign doctor handle; acquire bed; assign bed handle;
critical section setting `assigned_resources` and `IN_TREATMENT`;
treatment sleep; `READY_FOR_DISCHARGE`; enqueue on the discharge queue.
Any exception falls into `allocRollback` with the handles set so far. -/
def allocate_resources (p : Patient) (g : AllocRng) (fp : FailPoint) : AllocResult :=
  let p0 := { p with status := PatientStatus.WAITING_RESOURCE }
  if fp = .beforeDoctorAcquire then allocRollback [] p0 none none else
  let evs1 := [Event.acquireDoctor]
  if fp = .afterDoctorAcquire then allocRollback evs1 p0 none none else
  let d : DoctorHandle :=
    { id := pyRandint 1000 9999 g.doctorIdDraw
      speciality := pyChoice ["General", "Urgencias", "Cirugía"] g.doctorSpecDraw }
  if fp = .afterDoctorHandle then allocRollback evs1 p0 (some d) none else
  let evs2 := evs1 ++ [Event.acquireBed]
  if fp = .afterBedAcquire then allocRollback evs2 p0 (some d) none else
  let b : BedHandle :=
    { id := pyRandint 100 999 g.bedIdDraw
      ward := pyChoice ["General", "Intensivos", "Recuperación"] g.bedWardDraw }
  if fp = .afterBedHandle then allocRollback evs2 p0 (some d) (some b) else
  let p1 := { p0 with
    assigned_resources :=
      { doctor := some d, bed := some b, assignment_time := g.assignTime }
    status := PatientStatus.IN_TREATMENT }
  let p2 := { p1 with status := PatientStatus.READY_FOR_DISCHARGE }
  { events := evs2 ++ [Event.enqueueDischarge], patient := p2, enqueued := true }

/-- Number of doctor units the trace acquires. -/
def countAcqDoctor (evs : List Event) : Nat := evs.count .acquireDoctor

/-- Number of doctor units the trace releases. -/
def countRelDoctor (evs : List Event) : Nat := evs.count .releaseDoctor

/-- Number of bed units the trace acquires. -/
def countAcqBed (evs : List Event) : Nat := evs.count .acquireBed

/-- Number of bed units the trace releases. -/
def countRelBed (evs : List Event) : Nat := evs.count .releaseBed

/-- Doctor units still held at the end of the trace (acquires that were
never released).  Availability of the doctor pool changes by exactly
the negative of this quantity across the run. -/
def heldDoctor (evs : List Event) : Int :=
  (countAcqDoctor evs : Int) - (countRelDoctor evs : Int)

/-- Bed units still held at the end of the trace. -/
def heldBed (evs : List Event) : Int :=
  (countAcqBed evs : Int) - (countRelBed evs : Int)

/-- Whether `allocate_resources` interrupted at `fp` has executed the
statement `assigned_doctor = ...` (so the rollback handler sees a truthy
`assigned_doctor`). -/
def doctorHandleAssigned : FailPoint → Bool
  | .noFail | .afterDoctorHandle | .afterBedAcquire | .afterBedHandle => true
  | .beforeDoctorAcquire | .afterDoctorAcquire => false

/-- Whether the statement `assigned_bed = ...` has executed at `fp`. -/
def bedHandleAssigned : FailPoint → Bool
  | .noFail | .afterBedHandle => true
  | _ => false

/-- Scans a trace and checks that no release ever outnumbers the earlier
matching acquires: at every point, doctor releases so far ≤ doctor
acquires so far, and likewise for beds.  The four accumulators are the
running acquire/release counts. -/
def releasesMatched (aD rD aB rB : Nat) : List Event → Bool
  | [] => true
  | e :: rest =>
    match e with
    | .acquireDoctor => releasesMatched (aD + 1) rD aB rB rest
    | .releaseDoctor => decide (rD + 1 ≤ aD) && releasesMatched aD (rD + 1) aB rB rest
    | .acquireBed => releasesMatched aD rD (aB + 1) rB rest
    | .releaseBed => decide (rB + 1 ≤ aB) && releasesMatched aD rD aB (rB + 1) rest
    | .enqueueDischarge => releasesMatched aD rD aB rB rest

/-- Scans a trace and checks the doctor-then-bed acquisition discipline:
a bed is only acquired after the doctor has been acquired (`gotD`), and
at each doctor acquisition — i.e. at the end of a wait for a doctor — no
bed unit is currently held (`bHeld = 0`). -/
def doctorFirstOrder (gotD : Bool) (bHeld : Nat) : List Event → Bool
  | [] => true
  | e :: rest =>
    match e with
    | .acquireDoctor => decide (bHeld = 0) && doctorFirstOrder true bHeld rest
    | .acquireBed => gotD && doctorFirstOrder gotD (bHeld + 1) rest
    | .releaseBed => doctorFirstOrder gotD (bHeld - 1) rest
    | _ => doctorFirstOrder gotD bHeld rest

/-!
## Discharge stage (`process_discharge`) and statistics

Lines 192–197: under the stats lock, `processed_patients += 1` and
`avg_wait_time = (avg_wait_time * (processed_patients - 1)
+ total_time_in_system) / processed_patients`.
-/

/-- One statistics update: state is `(processed_patients, avg_wait_time)`,
`t` the new total-system-time sample. -/
def statUpdate (s : Nat × ℚ) (t : ℚ) : Nat × ℚ :=
  let k := s.1 + 1
  (k, (s.2 * ((k : ℚ) - 1) + t) / (k : ℚ))

/-- The aggregator state after folding the samples, starting from the
initial `(0, 0.0)` of `HospitalResources.__init__`. -/
def mkAvgState (samples : List ℚ) : Nat × ℚ :=
  samples.foldl statUpdate (0, 0)

/-- Result of processing one dequeued patient in `process_discharge`. -/
structure DischargeOut where
  events : List Event
  patient : Patient
  processed : Nat
  avg : ℚ
  deriving DecidableEq, Repr

/-- The body of `process_discharge` for one dequeued patient, after the
discharge sleep: release the doctor iff `assigned_resources['doctor']` is
present and truthy, the bed likewise; set status `DISCHARGED`; compute
`total_time_in_system = now - registration_time`; update the statistics
under the lock. -/
def dischargeOne (p : Patient) (now : ℚ) (processed : Nat) (avg : ℚ) : DischargeOut :=
  let evs := (if p.assigned_resources.doctor.isSome then [Event.releaseDoctor] else [])
          ++ (if p.assigned_resources.bed.isSome then [Event.releaseBed] else [])
  let p1 := { p with status := PatientStatus.DISCHARGED }
  let t := now - p1.registration_time
  let st := statUpdate (processed, avg) t
  { events := evs, patient := p1, processed := st.1, avg := st.2 }

/-- Where a cancellation (`asyncio.CancelledError`) is delivered inside
one iteration of the `process_discharge` loop.  The only suspension
points of an iteration are the `discharge_queue.get()` await and the
discharge-delay `asyncio.sleep` that follows the dequeue. -/
inductive CancelPoint where
  /-- No cancellation this iteration. -/
  | noCancel
  /-- Cancellation delivered while suspended in `get()` (nothing was
  dequeued; with an empty queue this is where the loop waits). -/
  | atGet
  /-- Cancellation delivered at the `asyncio.sleep` after an item was
  dequeued: the item is in flight. -/
  | atSleep
  deriving DecidableEq, Repr

/-- Observable outcome of one `process_discharge` loop iteration. -/
structure DisIterOut where
  /-- The loop hit `break` (honoured cancellation). -/
  exited : Bool
  /-- The exception escaped the loop to the caller (never: both handlers
  swallow; `except asyncio.CancelledError` breaks, `except Exception`
  continues). -/
  raisedToCaller : Bool
  /-- The loop is suspended in `get()` with nothing to do. -/
  blocked : Bool
  events : List Event
  queue : List Patient
  /-- The item fully processed this iteration, if any. -/
  processedPatient : Option Patient
  /-- An item dequeued but lost to cancellation before processing. -/
  droppedPatient : Option Patient
  processed : Nat
  avg : ℚ
  /-- Number of `task_done()` acknowledgements this iteration. -/
  taskDoneDelta : Nat
  deriving DecidableEq, Repr

/-- One iteration of the `process_discharge` loop (lines 175–205) with a
cancellation injected at `cp`.  A cancellation at `get()` dequeues
nothing and breaks; a cancellation at the discharge sleep has already
dequeued the head item, and the `except asyncio.CancelledError` handler
breaks immediately: the item is neither released, nor marked
`DISCHARGED`, nor counted, nor acknowledged. -/
def process_discharge_iter (queue : List Patient) (now : ℚ)
    (processed : Nat) (avg : ℚ) (cp : CancelPoint) : DisIterOut :=
  match queue with
  | [] =>
    match cp with
    | .noCancel =>
      { exited := false, raisedToCaller := false, blocked := true
        events := [], queue := [], processedPatient := none
        droppedPatient := none, processed := processed, avg := avg
        taskDoneDelta := 0 }
    | _ =>
      { exited := true, raisedToCaller := false, blocked := false
        events := [], queue := [], processedPatient := none
        droppedPatient := none, processed := processed, avg := avg
        taskDoneDelta := 0 }
  | p :: rest =>
    match cp with
    | .atGet =>
      { exited := true, raisedToCaller := false, blocked := false
        events := [], queue := p :: rest, processedPatient := none
        droppedPatient := none, processed := processed, avg := avg
        taskDoneDelta := 0 }
    | .atSleep =>
      { exited := true, raisedToCaller := false, blocked := false
        events := [], queue := rest, processedPatient := none
        droppedPatient := some p, processed := processed, avg := avg
        taskDoneDelta := 0 }
    | .noCancel =>
      let out := dischargeOne p now processed avg
      { exited := false, raisedToCaller := false, blocked := false
        events := out.events, queue := rest
        processedPatient := some out.patient, droppedPatient := none
        processed := out.processed, avg := out.avg, taskDoneDelta := 1 }

/-!
## Orchestrator collection loop (lines 249–268)

`while diagnosis_collected_count < num_patients:` — each non-empty poll
of the diagnosis-result queue dequeues one patient, increments the count
and spawns one `allocate_resources` task; an empty poll sleeps 0.1 s.
The polls the loop would observe are modelled as a list of
`Option Patient` (`some` = non-empty poll, `none` = empty poll).
-/

/-- Running state of the collection loop. -/
structure CollectState where
  collected : Nat
  spawned : Nat
  sleeps : Nat
  deriving DecidableEq, Repr

/-- The collection loop: runs until `collected` reaches `target`
(`num_patients`), which is its sole exit condition; `none` means the
supplied poll trace was exhausted with the loop still running. -/
def collectLoop (target : Nat) :
    List (Option Patient) → CollectState → Option CollectState
  | polls, s =>
    if target ≤ s.collected then some s
    else
      match polls with
      | [] => none
      | some _ :: rest =>
        collectLoop target rest ⟨s.collected + 1, s.spawned + 1, s.sleeps⟩
      | none :: rest =>
        collectLoop target rest ⟨s.collected, s.spawned, s.sleeps + 1⟩

/-- Number of non-empty polls in a poll trace. -/
def countItems (polls : List (Option Patient)) : Nat :=
  (polls.filter Option.isSome).length

/-!
## Whole-run resource transition system

`doctors_semaphore = asyncio.Semaphore(num_doctors)` and
`beds_semaphore = asyncio.Semaphore(num_beds)`: `acquire()` suspends
while the internal counter is 0 and decrements it on return; `release()`
increments it.  Each patient's allocation/discharge journey is abstracted
to the phase it has reached; the cooperative scheduler may interleave the
per-patient steps in any order, so reachability quantifies over all
interleavings.  Failure and cancellation outcomes (including the handle
leaks of `allocate_resources` and the in-flight drop of
`process_discharge`) are all included.
-/

/-- The resource-relevant phase of one patient's allocation/discharge
journey. -/
inductive APhase where
  /-- Not yet past the doctor acquire. -/
  | pending
  /-- Terminal: failed holding nothing (exception before the doctor
  acquire returned, or all acquired units already rolled back). -/
  | aborted
  /-- Terminal: doctor semaphore acquired, exception before
  `assigned_doctor` was set — the unit is never released. -/
  | leakD
  /-- Doctor acquired and handle assigned. -/
  | heldD
  /-- Terminal: bed acquired, exception before `assigned_bed` was set —
  the rollback released the doctor but the bed unit is never released. -/
  | leakB
  /-- Both units acquired and both handles assigned (in treatment). -/
  | heldDB
  /-- On the discharge queue (still holding both units). -/
  | queued
  /-- Terminal: dequeued by `process_discharge` but lost to cancellation
  before the releases — both units still held. -/
  | dropped
  /-- Terminal: discharged, both units released. -/
  | discharged
  deriving DecidableEq, Repr

/-- Doctor units a patient in this phase holds. -/
def APhase.holdsD : APhase → Nat
  | .leakD | .heldD | .heldDB | .queued | .dropped => 1
  | _ => 0

/-- Bed units a patient in this phase holds. -/
def APhase.holdsB : APhase → Nat
  | .leakB | .heldDB | .queued | .dropped => 1
  | _ => 0

/-- Global state: the two semaphore counters plus each patient's phase. -/
structure SysState where
  dAvail : Nat
  bAvail : Nat
  phases : List APhase
  deriving DecidableEq, Repr

/-- Total doctor units held across all patients. -/
def sumHoldsD (l : List APhase) : Nat := (l.map APhase.holdsD).sum

/-- Total bed units held across all patients. -/
def sumHoldsB (l : List APhase) : Nat := (l.map APhase.holdsB).sum

/-- The state at simulation start: both semaphores at capacity, every
patient before its doctor acquire. -/
def initState (numDoctors numBeds numPatients : Nat) : SysState :=
  { dAvail := numDoctors, bAvail := numBeds
    phases := List.replicate numPatients .pending }

/-- One atomic step of some patient `i`'s journey, as the source performs
it.  Semaphore acquires are guarded by a positive counter (the acquire
suspends otherwise); releases increment the counter. -/
inductive Step : SysState → SysState → Prop where
  /-- `doctors_semaphore.acquire()` returns and `assigned_doctor` is set. -/
  | acqDoctor (s : SysState) (i : Nat) (h : s.phases.get? i = some .pending)
      (hd : 0 < s.dAvail) :
      Step s ⟨s.dAvail - 1, s.bAvail, s.phases.set i .heldD⟩
  /-- `doctors_semaphore.acquire()` returns but the exception hits before
  `assigned_doctor` is set: the handler releases nothing. -/
  | acqDoctorLeak (s : SysState) (i : Nat) (h : s.phases.get? i = some .pending)
      (hd : 0 < s.dAvail) :
      Step s ⟨s.dAvail - 1, s.bAvail, s.phases.set i .leakD⟩
  /-- Exception before the doctor acquire returned: handler releases
  nothing, nothing was held. -/
  | abortEarly (s : SysState) (i : Nat) (h : s.phases.get? i = some .pending) :
      Step s ⟨s.dAvail, s.bAvail, s.phases.set i .aborted⟩
  /-- Exception after `assigned_doctor` but before the bed acquire
  returned: handler releases the doctor. -/
  | rollbackDoctor (s : SysState) (i : Nat) (h : s.phases.get? i = some .heldD) :
      Step s ⟨s.dAvail + 1, s.bAvail, s.phases.set i .aborted⟩
  /-- `beds_semaphore.acquire()` returns and `assigned_bed` is set. -/
  | acqBed (s : SysState) (i : Nat) (h : s.phases.get? i = some .heldD)
      (hb : 0 < s.bAvail) :
      Step s ⟨s.dAvail, s.bAvail - 1, s.phases.set i .heldDB⟩
  /-- `beds_semaphore.acquire()` returns but the exception hits before
  `assigned_bed` is set: the handler releases the doctor only. -/
  | acqBedLeak (s : SysState) (i : Nat) (h : s.phases.get? i = some .heldD)
      (hb : 0 < s.bAvail) :
      Step s ⟨s.dAvail + 1, s.bAvail - 1, s.phases.set i .leakB⟩
  /-- Exception between `assigned_bed` and the discharge enqueue: the
  handler releases both units. -/
  | rollbackBoth (s : SysState) (i : Nat) (h : s.phases.get? i = some .heldDB) :
      Step s ⟨s.dAvail + 1, s.bAvail + 1, s.phases.set i .aborted⟩
  /-- `discharge_queue.put(patient)` on the success path. -/
  | enqueue (s : SysState) (i : Nat) (h : s.phases.get? i = some .heldDB) :
      Step s ⟨s.dAvail, s.bAvail, s.phases.set i .queued⟩
  /-- `process_discharge` dequeues the patient and completes: both units
  released. -/
  | discharge (s : SysState) (i : Nat) (h : s.phases.get? i = some .queued) :
      Step s ⟨s.dAvail + 1, s.bAvail + 1, s.phases.set i .discharged⟩
  /-- `process_discharge` dequeues the patient but is cancelled at the
  discharge sleep: nothing released. -/
  | dropInFlight (s : SysState) (i : Nat) (h : s.phases.get? i = some .queued) :
      Step s ⟨s.dAvail, s.bAvail, s.phases.set i .dropped⟩

/-- States reachable from the initial state of a run configured with
`numDoctors`, `numBeds`, `numPatients`, under any interleaving. -/
inductive Reachable (numDoctors numBeds numPatients : Nat) : SysState → Prop where
  | init : Reachable numDoctors numBeds numPatients
      (initState numDoctors numBeds numPatients)
  | step {s s' : SysState} :
      Reachable numDoctors numBeds numPatients s → Step s s' →
      Reachable numDoctors numBeds numPatients s'

/-- Concrete sample values used for witnesses and counterexamples. -/
def demoPatient : Patient :=
  { priority := .MEDIUM, id := 1, name := "Paciente_1" }

def demoAllocRng : AllocRng :=
  { doctorIdDraw := 0, doctorSpecDraw := 0, bedIdDraw := 0, bedWardDraw := 0
    assignTime := 0 }

/-!
## Theorems
-/

/-- Replacing the `i`-th element changes a mapped sum by the difference of
the images: `sum (map f (l.set i x)) + f y = sum (map f l) + f x` when
`l.get? i = some y`. -/
lemma sum_map_set {α : Type} (f : α → Nat) :
    ∀ (l : List α) (i : Nat) (x y : α), l.get? i = some y →
      ((l.set i x).map f).sum + f y = (l.map f).sum + f x
  | [], _, _, _, h => Option.noConfusion h
  | a :: t, 0, x, y, h => by
      have hy : a = y := Option.some.inj h
      subst hy
      simp only [List.set_cons_zero, List.map_cons, List.sum_cons]
      omega
  | a :: t, i + 1, x, y, h => by
      have h' : t.get? i = some y := h
      have ih := sum_map_set f t i x y h'
      simp only [List.set_cons_succ, List.map_cons, List.sum_cons]
      omega

/-- One `Step` preserves the conservation equations of both pools. -/
lemma step_preserves_pool_invariant (D B : Nat) {s s' : SysState}
    (hs : Step s s')
    (h1 : s.dAvail + sumHoldsD s.phases = D)
    (h2 : s.bAvail + sumHoldsB s.phases = B) :
    s'.dAvail + sumHoldsD s'.phases = D ∧ s'.bAvail + sumHoldsB s'.phases = B := by
  cases hs with
  | acqDoctor i hi hd =>
      have ed := sum_map_set APhase.holdsD s.phases i .heldD .pending hi
      have eb := sum_map_set APhase.holdsB s.phases i .heldD .pending hi
      simp only [APhase.holdsD, APhase.holdsB] at ed eb
      simp only [sumHoldsD, sumHoldsB] at h1 h2 ⊢
      omega
  | acqDoctorLeak i hi hd =>
      have ed := sum_map_set APhase.holdsD s.phases i .leakD .pending hi
      have eb := sum_map_set APhase.holdsB s.phases i .leakD .pending hi
      simp only [APhase.holdsD, APhase.holdsB] at ed eb
      simp only [sumHoldsD, sumHoldsB] at h1 h2 ⊢
      omega
  | abortEarly i hi =>
      have ed := sum_map_set APhase.holdsD s.phases i .aborted .pending hi
      have eb := sum_map_set APhase.holdsB s.phases i .aborted .pending hi
      simp only [APhase.holdsD, APhase.holdsB] at ed eb
      simp only [sumHoldsD, sumHoldsB] at h1 h2 ⊢
      omega
  | rollbackDoctor i hi =>
      have ed := sum_map_set APhase.holdsD s.phases i .aborted .heldD hi
      have eb := sum_map_set APhase.holdsB s.phases i .aborted .heldD hi
      simp only [APhase.holdsD, APhase.holdsB] at ed eb
      simp only [sumHoldsD, sumHoldsB] at h1 h2 ⊢
      omega
  | acqBed i hi hb =>
      have ed := sum_map_set APhase.holdsD s.phases i .heldDB .heldD hi
      have eb := sum_map_set APhase.holdsB s.phases i .heldDB .heldD hi
      simp only [APhase.holdsD, APhase.holdsB] at ed eb
      simp only [sumHoldsD, sumHoldsB] at h1 h2 ⊢
      omega
  | acqBedLeak i hi hb =>
      have ed := sum_map_set APhase.holdsD s.phases i .leakB .heldD hi
      have eb := sum_map_set APhase.holdsB s.phases i .leakB .heldD hi
      simp only [APhase.holdsD, APhase.holdsB] at ed eb
      simp only [sumHoldsD, sumHoldsB] at h1 h2 ⊢
      omega
  | rollbackBoth i hi =>
      have ed := sum_map_set APhase.holdsD s.phases i .aborted .heldDB hi
      have eb := sum_map_set APhase.holdsB s.phases i .aborted .heldDB hi
      simp only [APhase.holdsD, APhase.holdsB] at ed eb
      simp only [sumHoldsD, sumHoldsB] at h1 h2 ⊢
      omega
  | enqueue i hi =>
      have ed := sum_map_set APhase.holdsD s.phases i .queued .heldDB hi
      have eb := sum_map_set APhase.holdsB s.phases i .queued .heldDB hi
      simp only [APhase.holdsD, APhase.holdsB] at ed eb
      simp only [sumHoldsD, sumHoldsB] at h1 h2 ⊢
      omega
  | discharge i hi =>
      have ed := sum_map_set APhase.holdsD s.phases i .discharged .queued hi
      have eb := sum_map_set APhase.holdsB s.phases i .discharged .queued hi
      simp only [APhase.holdsD, APhase.holdsB] at ed eb
      simp only [sumHoldsD, sumHoldsB] at h1 h2 ⊢
      omega
  | dropInFlight i hi =>
      have ed := sum_map_set APhase.holdsD s.phases i .dropped .queued hi
      have eb := sum_map_set APhase.holdsB s.phases i .dropped .queued hi
      simp only [APhase.holdsD, APhase.holdsB] at ed eb
      simp only [sumHoldsD, sumHoldsB] at h1 h2 ⊢
      omega

/-- The conservation invariant of both pools: available units plus held
units always equal the configured capacity. -/
lemma reachable_pool_invariant (D B n : Nat) (s : SysState)
    (h : Reachable D B n s) :
    s.dAvail + sumHoldsD s.phases = D ∧ s.bAvail + sumHoldsB s.phases = B := by
  induction h with
  | init =>
      constructor <;>
        simp [initState, sumHoldsD, sumHoldsB, List.map_replicate,
          APhase.holdsD, APhase.holdsB]
  | step hr hstep ih =>
      exact step_preserves_pool_invariant D B hstep ih.1 ih.2

/-- C3: at every reachable state of a run configured with `numDoctors`
doctors and `numBeds` beds, the number of concurrently held doctor units
never exceeds `numDoctors` and the number of concurrently held bed units
never exceeds `numBeds`; equivalently each semaphore's availability stays
between 0 and its fixed capacity (`availability + held = capacity`). -/
theorem C3_pool_capacity_bound (D B n : Nat) (s : SysState)
    (h : Reachable D B n s) :
    sumHoldsD s.phases ≤ D ∧ sumHoldsB s.phases ≤ B ∧
    s.dAvail ≤ D ∧ s.bAvail ≤ B ∧
    s.dAvail + sumHoldsD s.phases = D ∧ s.bAvail + sumHoldsB s.phases = B := by
  have hinv := reachable_pool_invariant D B n s h
  omega

/-- Witness for C3 at a concrete reachable state: one patient, one doctor,
one bed, after the patient acquired the doctor. -/
theorem C3_pool_capacity_bound_witness :
    sumHoldsD [APhase.heldD] ≤ 1 ∧ sumHoldsB [APhase.heldD] ≤ 1 ∧
    (0 : Nat) ≤ 1 ∧ (1 : Nat) ≤ 1 ∧
    0 + sumHoldsD [APhase.heldD] = 1 ∧ 1 + sumHoldsB [APhase.heldD] = 1 :=
  C3_pool_capacity_bound 1 1 1 ⟨0, 1, [APhase.heldD]⟩
    (Reachable.step Reachable.init
      (Step.acqDoctor (initState 1 1 1) 0 rfl (by decide)))

/-- Folding `statUpdate` keeps the count exact and the average times the
count equal to the accumulated sum. -/
lemma foldl_statUpdate_charn :
    ∀ (l : List ℚ) (k : Nat) (a : ℚ),
      (l.foldl statUpdate (k, a)).1 = k + l.length ∧
      (l.foldl statUpdate (k, a)).2 * ((k : ℚ) + l.length) = a * k + l.sum
  | [], k, a => by simp
  | t :: rest, k, a => by
      have ih := foldl_statUpdate_charn rest (k + 1) ((a * ((((k : Nat) + 1 : Nat) : ℚ) - 1) + t) / (((k : Nat) + 1 : Nat) : ℚ))
      have hk1 : (((k : Nat) + 1 : Nat) : ℚ) ≠ 0 := by
        exact_mod_cast Nat.succ_ne_zero k
      constructor
      · rw [List.foldl_cons]
        rw [show statUpdate (k, a) t = ((k + 1 : Nat), (a * ((((k : Nat) + 1 : Nat) : ℚ) - 1) + t) / (((k : Nat) + 1 : Nat) : ℚ)) from rfl]
        rw [ih.1]
        simp [List.length_cons]
        omega
      · rw [List.foldl_cons]
        rw [show statUpdate (k, a) t = ((k + 1 : Nat), (a * ((((k : Nat) + 1 : Nat) : ℚ) - 1) + t) / (((k : Nat) + 1 : Nat) : ℚ)) from rfl]
        have h2 := ih.2
        have hnum : (a * ((((k : Nat) + 1 : Nat) : ℚ) - 1) + t) / (((k : Nat) + 1 : Nat) : ℚ) * (((k : Nat) + 1 : Nat) : ℚ) = a * k + t := by
          rw [div_mul_cancel₀ _ hk1]
          push_cast
          ring
        -- rewrite the length/sum of the cons and massage casts
        rw [List.sum_cons, List.length_cons]
        have hcast : ((k : ℚ) + ((rest.length + 1 : Nat) : ℚ)) = ((((k : Nat) + 1 : Nat) : ℚ) + (rest.length : ℚ)) := by
          push_cast
          ring
        rw [hcast, h2, hnum]
        ring

/-- The aggregator state after `k` samples is exactly
`(k, mean of the samples)` (with the empty mean read as `0/0 = 0`). -/
lemma mkAvgState_eq (l : List ℚ) :
    mkAvgState l = (l.length, l.sum / (l.length : ℚ)) := by
  have h := foldl_statUpdate_charn l 0 0
  simp only [Nat.cast_zero, zero_add, zero_mul] at h
  unfold mkAvgState
  by_cases hnil : l = []
  · subst hnil
    simp [statUpdate]
  · have hlen : ((l.length : ℚ)) ≠ 0 :=
      Nat.cast_ne_zero.mpr (fun h0 => hnil (List.length_eq_zero.mp h0))
    refine Prod.ext h.1 ?_
    show (l.foldl statUpdate (0, 0)).2 = l.sum / (l.length : ℚ)
    rw [eq_div_iff hlen]
    exact h.2

/-- C4: after the k-th discharge the aggregator's `avg_wait_time` equals
the arithmetic mean of the k total-system-time samples, maintained by the
incremental update `avg' = (avg*(k-1) + sample)/k` (the `statUpdate` used
by `dischargeOne`) without storing the sample list, and the aggregate is
independent of the order in which the samples were processed. -/
theorem C4_incremental_mean :
    (∀ l : List ℚ,
      (mkAvgState l).1 = l.length ∧
      (mkAvgState l).2 = l.sum / (l.length : ℚ)) ∧
    (∀ l l' : List ℚ, l.Perm l' → mkAvgState l = mkAvgState l') ∧
    (∀ (p : Patient) (now : ℚ) (k : Nat) (a : ℚ),
      ((dischargeOne p now k a).processed, (dischargeOne p now k a).avg) =
        statUpdate (k, a) (now - p.registration_time)) := by
  refine ⟨?_, ?_, ?_⟩
  · intro l
    rw [mkAvgState_eq]
    exact ⟨rfl, rfl⟩
  · intro l l' hperm
    rw [mkAvgState_eq, mkAvgState_eq, hperm.length_eq, hperm.sum_eq]
  · intro p now k a
    rfl

/-- Witness for C4: the order-independence part applied to a concrete
permutation of samples. -/
theorem C4_incremental_mean_witness :
    mkAvgState [(1 : ℚ), 2, 6] = mkAvgState [6, 1, 2] :=
  C4_incremental_mean.2.1 [(1 : ℚ), 2, 6] [6, 1, 2] (by decide)

/-- If the loop returns, it returns with `collected = target` (the count
is the sole exit condition), having spawned exactly one allocation task
per collected result. -/
lemma collectLoop_exit_counts (target : Nat) :
    ∀ (polls : List (Option Patient)) (s s' : CollectState),
      collectLoop target polls s = some s' → s.collected ≤ target →
      s'.collected = target ∧ s'.spawned + s.collected = s.spawned + s'.collected
  | [], s, s', h, hle => by
      unfold collectLoop at h
      by_cases hc : target ≤ s.collected
      · simp [hc] at h
        subst h
        omega
      · simp [hc] at h
  | op :: rest, s, s', h, hle => by
      unfold collectLoop at h
      by_cases hc : target ≤ s.collected
      · simp [hc] at h
        subst h
        omega
      · simp [hc] at h
        match op, h with
        | some p, h =>
            have ih := collectLoop_exit_counts target rest
              ⟨s.collected + 1, s.spawned + 1, s.sleeps⟩ s' h
              (by show s.collected + 1 ≤ target; omega)
            simp at ih
            omega
        | none, h =>
            have ih := collectLoop_exit_counts target rest
              ⟨s.collected, s.spawned, s.sleeps + 1⟩ s' h
              (by show s.collected ≤ target; omega)
            simp at ih
            omega

/-- If the poll trace carries enough diagnosed results, the loop
terminates. -/
lemma collectLoop_terminates (target : Nat) :
    ∀ (polls : List (Option Patient)) (s : CollectState),
      target ≤ s.collected + countItems polls →
      (collectLoop target polls s).isSome
  | [], s, h => by
      unfold collectLoop
      simp [countItems] at h
      simp [h]
  | op :: rest, s, h => by
      unfold collectLoop
      by_cases hc : target ≤ s.collected
      · simp [hc]
      · simp [hc]
        match op with
        | some p =>
            have : target ≤ s.collected + 1 + countItems rest := by
              simp [countItems, List.filter] at h ⊢
              omega
            exact collectLoop_terminates target rest
              ⟨s.collected + 1, s.spawned + 1, s.sleeps⟩ this
        | none =>
            have : target ≤ s.collected + countItems rest := by
              simp [countItems, List.filter] at h ⊢
              omega
            exact collectLoop_terminates target rest
              ⟨s.collected, s.spawned, s.sleeps + 1⟩ this

/-- C5: the orchestrator's collection loop exits iff exactly `target`
(`num_patients`) diagnosed results have been dequeued — the count is its
sole termination condition; each non-empty poll dequeues one patient and
spawns one allocation task (so tasks spawned = results collected), and
each empty poll yields with a bounded sleep, leaving the counts
unchanged. -/
theorem C5_collection_loop :
    (∀ (target : Nat) (polls : List (Option Patient)) (s' : CollectState),
      collectLoop target polls ⟨0, 0, 0⟩ = some s' →
      s'.collected = target ∧ s'.spawned = target) ∧
    (∀ (target : Nat) (polls : List (Option Patient)),
      target ≤ countItems polls →
      (collectLoop target polls ⟨0, 0, 0⟩).isSome) ∧
    (∀ (target : Nat) (polls : List (Option Patient)) (s : CollectState)
      (p : Patient), s.collected < target →
      collectLoop target (some p :: polls) s =
        collectLoop target polls ⟨s.collected + 1, s.spawned + 1, s.sleeps⟩) ∧
    (∀ (target : Nat) (polls : List (Option Patient)) (s : CollectState),
      s.collected < target →
      collectLoop target (none :: polls) s =
        collectLoop target polls ⟨s.collected, s.spawned, s.sleeps + 1⟩) := by
  refine ⟨?_, ?_, ?_, ?_⟩
  · intro target polls s' h
    have := collectLoop_exit_counts target polls ⟨0, 0, 0⟩ s' h (Nat.zero_le _)
    simp at this
    omega
  · intro target polls h
    exact collectLoop_terminates target polls ⟨0, 0, 0⟩ (by simpa using h)
  · intro target polls s p hlt
    conv_lhs => unfold collectLoop
    simp [Nat.not_le.mpr hlt]
  · intro target polls s hlt
    conv_lhs => unfold collectLoop
    simp [Nat.not_le.mpr hlt]

/-- Witness for C5: a run with one empty poll then two results reaches
exactly the target 2 with 2 spawned tasks. -/
theorem C5_collection_loop_witness :
    (⟨2, 2, 1⟩ : CollectState).collected = 2 ∧
    (⟨2, 2, 1⟩ : CollectState).spawned = 2 :=
  C5_collection_loop.1 2 [none, some demoPatient, some demoPatient]
    ⟨2, 2, 1⟩ rfl

/-- The injection points lying after the doctor acquisition and before
the discharge enqueue — the window the failure-policy claim quantifies
over. -/
def inFailWindow (fp : FailPoint) : Prop :=
  fp = .afterDoctorAcquire ∨ fp = .afterDoctorHandle ∨
  fp = .afterBedAcquire ∨ fp = .afterBedHandle

/-- C1 as stated: for every patient and any exception raised after the
doctor acquisition and before the discharge enqueue, exactly the
resources already acquired are released (trace ends holding nothing) and
the failed patient is never enqueued. -/
def C1Claim : Prop :=
  ∀ (p : Patient) (g : AllocRng) (fp : FailPoint), inFailWindow fp →
    heldDoctor (allocate_resources p g fp).events = 0 ∧
    heldBed (allocate_resources p g fp).events = 0 ∧
    (allocate_resources p g fp).enqueued = false

/-- C1 counterexample: an exception raised after
`doctors_semaphore.acquire()` returns but before `assigned_doctor` is
set (e.g. the doctor-handle generator itself failing) is inside the
claimed window, yet the rollback handler sees `assigned_doctor == None`
and releases nothing: the acquired doctor unit is never released and the
pool availability does not return to its pre-acquire value. -/
theorem C1_rollback_counterexample : ¬ C1Claim := by
  intro h
  have hc := h demoPatient demoAllocRng .afterDoctorAcquire (Or.inl rfl)
  exact absurd hc.1 (by decide)

/-- C1 amended: for any exception raised after the corresponding handle
assignment (one statement after each semaphore acquire) and before the
discharge enqueue, exactly the handle-recorded resources are released —
in particular a failure after the doctor handle is assigned and before
the bed is acquired returns doctor availability exactly to its
pre-acquire value — every release matches an earlier acquire, and the
failed patient is never placed on the discharge queue.  An exception in
the one-statement gap between an acquire and its handle assignment leaks
that unit (the uncorrected remainder of the original claim). -/
theorem C1_rollback_amended (p : Patient) (g : AllocRng) (fp : FailPoint)
    (hfp : fp ≠ .noFail) :
    (allocate_resources p g fp).enqueued = false ∧
    countRelDoctor (allocate_resources p g fp).events =
      (if doctorHandleAssigned fp then 1 else 0) ∧
    countRelBed (allocate_resources p g fp).events =
      (if bedHandleAssigned fp then 1 else 0) ∧
    releasesMatched 0 0 0 0 (allocate_resources p g fp).events = true ∧
    (fp = .afterDoctorHandle →
      heldDoctor (allocate_resources p g fp).events = 0 ∧
      heldBed (allocate_resources p g fp).events = 0) := by
  cases fp with
  | noFail => exact absurd rfl hfp
  | beforeDoctorAcquire =>
      exact ⟨rfl, rfl, rfl, rfl, fun h => by cases h⟩
  | afterDoctorAcquire =>
      exact ⟨rfl, rfl, rfl, rfl, fun h => by cases h⟩
  | afterDoctorHandle =>
      exact ⟨rfl, rfl, rfl, rfl, fun _ => ⟨rfl, rfl⟩⟩
  | afterBedAcquire =>
      exact ⟨rfl, rfl, rfl, rfl, fun h => by cases h⟩
  | afterBedHandle =>
      exact ⟨rfl, rfl, rfl, rfl, fun h => by cases h⟩

/-- Witness for C1 amended: the spec's own scenario — failure after the
doctor handle is assigned, before the bed acquire — at concrete inputs. -/
theorem C1_rollback_amended_witness :
    (allocate_resources demoPatient demoAllocRng .afterDoctorHandle).enqueued
        = false ∧
    countRelDoctor
        (allocate_resources demoPatient demoAllocRng .afterDoctorHandle).events =
      (if doctorHandleAssigned .afterDoctorHandle then 1 else 0) ∧
    countRelBed
        (allocate_resources demoPatient demoAllocRng .afterDoctorHandle).events =
      (if bedHandleAssigned .afterDoctorHandle then 1 else 0) ∧
    releasesMatched 0 0 0 0
        (allocate_resources demoPatient demoAllocRng .afterDoctorHandle).events
        = true ∧
    (FailPoint.afterDoctorHandle = .afterDoctorHandle →
      heldDoctor
          (allocate_resources demoPatient demoAllocRng .afterDoctorHandle).events
          = 0 ∧
      heldBed
          (allocate_resources demoPatient demoAllocRng .afterDoctorHandle).events
          = 0) :=
  C1_rollback_amended demoPatient demoAllocRng .afterDoctorHandle (by decide)

/-- C9: every allocation task acquires in the fixed global order
doctor-then-bed: in the event trace of any run (any failure point), a
bed acquire only occurs after the doctor has been acquired, and at the
moment any doctor acquire completes — i.e. at the end of any wait for a
doctor — the task holds no bed unit, which excludes a doctor/bed
circular wait. -/
theorem C9_doctor_then_bed (p : Patient) (g : AllocRng) (fp : FailPoint) :
    doctorFirstOrder false 0 (allocate_resources p g fp).events = true ∧
    countAcqBed (allocate_resources p g fp).events ≤
      countAcqDoctor (allocate_resources p g fp).events := by
  cases fp with
  | noFail => exact ⟨rfl, Nat.le_refl _⟩
  | beforeDoctorAcquire => exact ⟨rfl, Nat.zero_le _⟩
  | afterDoctorAcquire => exact ⟨rfl, Nat.zero_le _⟩
  | afterDoctorHandle => exact ⟨rfl, Nat.zero_le _⟩
  | afterBedAcquire => exact ⟨rfl, Nat.le_refl _⟩
  | afterBedHandle => exact ⟨rfl, Nat.le_refl _⟩

/-- C2: a patient that reaches DISCHARGED went through the success path
of `allocate_resources` (the only path that enqueues) and then through
`process_discharge`: the combined trace performs exactly one doctor
acquire, one bed acquire, one doctor release and one bed release, no
release precedes its matching acquire, and nothing remains held at the
end; the final status is DISCHARGED. -/
theorem C2_discharge_balanced (p : Patient) (g : AllocRng) (now : ℚ)
    (k : Nat) (a : ℚ) :
    (allocate_resources p g .noFail).enqueued = true ∧
    (allocate_resources p g .noFail).patient.status = .READY_FOR_DISCHARGE ∧
    (dischargeOne (allocate_resources p g .noFail).patient now k a).patient.status
      = .DISCHARGED ∧
    countAcqDoctor ((allocate_resources p g .noFail).events ++
      (dischargeOne (allocate_resources p g .noFail).patient now k a).events) = 1 ∧
    countRelDoctor ((allocate_resources p g .noFail).events ++
      (dischargeOne (allocate_resources p g .noFail).patient now k a).events) = 1 ∧
    countAcqBed ((allocate_resources p g .noFail).events ++
      (dischargeOne (allocate_resources p g .noFail).patient now k a).events) = 1 ∧
    countRelBed ((allocate_resources p g .noFail).events ++
      (dischargeOne (allocate_resources p g .noFail).patient now k a).events) = 1 ∧
    releasesMatched 0 0 0 0 ((allocate_resources p g .noFail).events ++
      (dischargeOne (allocate_resources p g .noFail).patient now k a).events)
      = true ∧
    heldDoctor ((allocate_resources p g .noFail).events ++
      (dischargeOne (allocate_resources p g .noFail).patient now k a).events) = 0 ∧
    heldBed ((allocate_resources p g .noFail).events ++
      (dischargeOne (allocate_resources p g .noFail).patient now k a).events) = 0 :=
  ⟨rfl, rfl, rfl, rfl, rfl, rfl, rfl, rfl, rfl, rfl⟩

/-- C6 as stated: when cancellation is signalled with an item already
dequeued (delivery at the next suspension point, the discharge sleep),
the loop fully processes that item — releases its resources, marks it
DISCHARGED, counts it — before exiting, loses nothing, and does not
raise the cancellation to the orchestrator. -/
def C6Claim : Prop :=
  ∀ (p : Patient) (rest : List Patient) (now : ℚ) (k : Nat) (a : ℚ),
    (process_discharge_iter (p :: rest) now k a .atSleep).exited = true ∧
    (process_discharge_iter (p :: rest) now k a .atSleep).raisedToCaller
      = false ∧
    (process_discharge_iter (p :: rest) now k a .atSleep).droppedPatient
      = none ∧
    (∃ q, (process_discharge_iter (p :: rest) now k a .atSleep).processedPatient
        = some q ∧ q.status = .DISCHARGED) ∧
    (process_discharge_iter (p :: rest) now k a .atSleep).processed = k + 1

/-- C6 counterexample: the `except asyncio.CancelledError` handler wraps
the whole loop body, so a cancellation delivered at the discharge sleep
— after `discharge_queue.get()` already returned an item — breaks out
immediately: the dequeued patient is dropped unprocessed (no releases,
no DISCHARGED status, no statistics update). -/
theorem C6_cancellation_counterexample : ¬ C6Claim := by
  intro h
  have hc := h demoPatient [] 0 0 0
  exact absurd hc.2.2.1 (by decide)

/-- C6 amended: when cancellation is delivered, the loop exits at that
next cancellation point without raising to the orchestrator and without
touching the resources or the statistics; items never dequeued remain in
the queue, but an item already dequeued when the cancellation arrives
(delivery at the discharge sleep) is dropped unprocessed rather than
completed. -/
theorem C6_cancellation_amended (queue : List Patient) (now : ℚ) (k : Nat)
    (a : ℚ) (cp : CancelPoint) (hcp : cp ≠ .noCancel) :
    (process_discharge_iter queue now k a cp).exited = true ∧
    (process_discharge_iter queue now k a cp).raisedToCaller = false ∧
    (process_discharge_iter queue now k a cp).events = [] ∧
    (process_discharge_iter queue now k a cp).processed = k ∧
    (process_discharge_iter queue now k a cp).avg = a ∧
    (process_discharge_iter queue now k a cp).taskDoneDelta = 0 ∧
    (process_discharge_iter queue now k a cp).processedPatient = none ∧
    (cp = .atGet → (process_discharge_iter queue now k a cp).queue = queue ∧
      (process_discharge_iter queue now k a cp).droppedPatient = none) ∧
    (cp = .atSleep →
      (process_discharge_iter queue now k a cp).droppedPatient = queue.head? ∧
      (process_discharge_iter queue now k a cp).queue = queue.tail) := by
  cases cp with
  | noCancel => exact absurd rfl hcp
  | atGet =>
      cases queue with
      | nil =>
          refine ⟨rfl, rfl, rfl, rfl, rfl, rfl, rfl, fun _ => ⟨rfl, rfl⟩, ?_⟩
          intro h
          exact absurd h (by decide)
      | cons p rest =>
          refine ⟨rfl, rfl, rfl, rfl, rfl, rfl, rfl, fun _ => ⟨rfl, rfl⟩, ?_⟩
          intro h
          exact absurd h (by decide)
  | atSleep =>
      cases queue with
      | nil =>
          refine ⟨rfl, rfl, rfl, rfl, rfl, rfl, rfl, ?_, fun _ => ⟨rfl, rfl⟩⟩
          intro h
          exact absurd h (by decide)
      | cons p rest =>
          refine ⟨rfl, rfl, rfl, rfl, rfl, rfl, rfl, ?_, fun _ => ⟨rfl, rfl⟩⟩
          intro h
          exact absurd h (by decide)

/-- Witness for C6 amended: cancellation delivered at the discharge sleep
with one concrete patient queued. -/
theorem C6_cancellation_amended_witness :
    (process_discharge_iter [demoPatient] 0 0 0 .atSleep).exited = true ∧
    (process_discharge_iter [demoPatient] 0 0 0 .atSleep).raisedToCaller
      = false ∧
    (process_discharge_iter [demoPatient] 0 0 0 .atSleep).events = [] ∧
    (process_discharge_iter [demoPatient] 0 0 0 .atSleep).processed = 0 ∧
    (process_discharge_iter [demoPatient] 0 0 0 .atSleep).avg = 0 ∧
    (process_discharge_iter [demoPatient] 0 0 0 .atSleep).taskDoneDelta = 0 ∧
    (process_discharge_iter [demoPatient] 0 0 0 .atSleep).processedPatient
      = none ∧
    (CancelPoint.atSleep = .atGet →
      (process_discharge_iter [demoPatient] 0 0 0 .atSleep).queue
        = [demoPatient] ∧
      (process_discharge_iter [demoPatient] 0 0 0 .atSleep).droppedPatient
        = none) ∧
    (CancelPoint.atSleep = .atSleep →
      (process_discharge_iter [demoPatient] 0 0 0 .atSleep).droppedPatient
        = [demoPatient].head? ∧
      (process_discharge_iter [demoPatient] 0 0 0 .atSleep).queue
        = [demoPatient].tail) :=
  C6_cancellation_amended [demoPatient] 0 0 0 .atSleep (by decide)

/-- C7 as stated: the diagnosis payload a worker produces for a patient
is deterministic — two runs of the worker step on the same patient yield
equal payloads. -/
def C7Claim : Prop :=
  ∀ (p : Patient) (g g' : DiagRng) (q : List Patient),
    (diagnosisStep p g q).2.1.diagnosis = (diagnosisStep p g' q).2.1.diagnosis

/-- C7 counterexample: the payload fields come from `random.choice` /
`random.randint` draws, not from the patient: two runs whose severity
draws differ produce different payloads for the same patient. -/
theorem C7_determinism_counterexample : ¬ C7Claim := by
  intro h
  have hc := h demoPatient
    ⟨0, 0, 0, 0⟩ ⟨0, 0, 1, 0⟩ []
  exact absurd hc (by decide)

/-- C7 amended: the payload is a function of the RNG draws alone (the
same draws always give the same payload, whatever the patient), severity
is always between 1 and 10, the patient's status is advanced
WAITING_DIAGNOSIS → DIAGNOSED, and the diagnosed patient is pushed onto
the diagnosis-result queue. -/
theorem C7_diagnosis_amended (p : Patient) (g : DiagRng) (q : List Patient) :
    (diagnosisStep p g q).2.1.diagnosis = some (mkDiagnosis g) ∧
    (∀ (p' : Patient) (q' : List Patient),
      (diagnosisStep p' g q').2.1.diagnosis = some (mkDiagnosis g)) ∧
    1 ≤ (mkDiagnosis g).severity ∧ (mkDiagnosis g).severity ≤ 10 ∧
    (diagnosisStep p g q).1 = [.WAITING_DIAGNOSIS, .DIAGNOSED] ∧
    (diagnosisStep p g q).2.1.status = .DIAGNOSED ∧
    (diagnosisStep p g q).2.2 = q ++ [(diagnosisStep p g q).2.1] := by
  refine ⟨rfl, fun p' q' => rfl, ?_, ?_, rfl, rfl, rfl⟩
  · show 1 ≤ pyRandint 1 10 g.severityDraw
    simp [pyRandint]
  · show pyRandint 1 10 g.severityDraw ≤ 10
    simp only [pyRandint]
    omega

/-- Folding `register_patient` over a batch adds exactly one to the
counter and one queue entry per invocation, from any starting state. -/
lemma runRegistration_counts :
    ∀ (ps : List (Patient × Nat)) (s : RegState),
      (runRegistration ps s).total_patients = s.total_patients + ps.length ∧
      (runRegistration ps s).diagnosis_queue.length
        = s.diagnosis_queue.length + ps.length
  | [], s => by simp [runRegistration]
  | pr :: rest, s => by
      have ih := runRegistration_counts rest (register_patient pr.1 pr.2 s)
      unfold runRegistration at ih ⊢
      rw [List.foldl_cons]
      refine ⟨?_, ?_⟩
      · rw [ih.1]
        simp [register_patient]
        omega
      · rw [ih.2]
        simp [register_patient]
        omega

/-- C8: for a run with `numPatients = N` (any `N ≥ 0`), `total_patients`
equals `N` once every `register_patient` invocation has run: each
invocation increments the counter exactly once, assigns a priority drawn
from the four levels (the draw indexes the four-member list uniformly,
each level being hit by exactly one residue class mod 4), sets the
status to REGISTERED, and enqueues the patient exactly once on the
diagnosis queue. -/
theorem C8_registration_counts :
    (∀ ps : List (Patient × Nat),
      (runRegistration ps {}).total_patients = ps.length ∧
      (runRegistration ps {}).diagnosis_queue.length = ps.length) ∧
    (∀ (p : Patient) (r : Nat) (s : RegState),
      (register_patient p r s).total_patients = s.total_patients + 1 ∧
      (register_patient p r s).diagnosis_queue = s.diagnosis_queue ++
        [{ p with priority := pyChoicePriority r,
                  status := PatientStatus.REGISTERED }] ∧
      pyChoicePriority r ∈ Priority.members ∧
      pyChoicePriority r = Priority.members.getD (r % 4) .LOW) ∧
    (∀ pr : Priority, ∃ r : Nat, pyChoicePriority r = pr) := by
  refine ⟨?_, ?_, ?_⟩
  · intro ps
    have h := runRegistration_counts ps {}
    simpa using h
  · intro p r s
    refine ⟨rfl, rfl, ?_, rfl⟩
    have h4 : r % 4 < 4 := Nat.mod_lt _ (by decide)
    have : r % 4 = 0 ∨ r % 4 = 1 ∨ r % 4 = 2 ∨ r % 4 = 3 := by omega
    rcases this with h | h | h | h <;>
      simp [pyChoicePriority, Priority.members, h]
  · intro pr
    cases pr with
    | LOW => exact ⟨0, rfl⟩
    | MEDIUM => exact ⟨1, rfl⟩
    | HIGH => exact ⟨2, rfl⟩
    | CRITICAL => exact ⟨3, rfl⟩

/-- Concrete patients for the ordering bug: one CRITICAL, one LOW, with
every non-compared field differing. -/
def demoCritical : Patient :=
  { priority := .CRITICAL, id := 1, name := "A", symptoms := ["Fiebre"] }

def demoLow : Patient :=
  { priority := .LOW, id := 2, name := "B", symptoms := ["Tos"] }

/-- C10 (code bug): the generated `Patient.__lt__` compares the tuple
`(self.priority,) < (other.priority,)`, but `Priority` is a plain `Enum`
with no order, so the comparison raises `TypeError` (modelled `none`)
whenever the priorities differ — here for CRITICAL vs LOW, where the
spec's numeric ordering (0 < 3) says the comparison should be `True` —
and returns `False` only when the priorities are identical; no other
field ever influences the result. -/
theorem C10_order_typeerror :
    patientLt demoCritical demoLow = none ∧
    specPatientLt demoCritical demoLow = true ∧
    patientLt demoLow demoLow = some false ∧
    (∀ p q : Patient, p.priority ≠ q.priority → patientLt p q = none) ∧
    (∀ p q : Patient, p.priority = q.priority → patientLt p q = some false) ∧
    (∀ p q p' q' : Patient, p.priority = p'.priority →
      q.priority = q'.priority → patientLt p q = patientLt p' q') := by
  refine ⟨rfl, rfl, rfl, ?_, ?_, ?_⟩
  · intro p q h
    simp [patientLt, h]
  · intro p q h
    simp [patientLt, h]
  · intro p q p' q' hp hq
    simp [patientLt, hp, hq]

end Hospital
